import Mathlib

/- Verification of the VEET serial-session core: a shallow embedding of
SerialManager.ts (SerialConnection / SerialManager) and the polling portion of
MainWindow.ts, together with the shared numeric helpers from utils.ts. -/

namespace Veet

/- ## JavaScript primitives used by the source -/

/-- JavaScript startsWith: the second string is a leading substring of the
first. -/
def jsStartsWith (s pre : String) : Bool := pre.data.isPrefixOf s.data

/-- The JavaScript WhiteSpace and LineTerminator characters: TAB, LF, VT, FF,
CR, SP, NBSP, OGHAM SPACE MARK, the EN QUAD through HAIR SPACE range, LS, PS,
NARROW NBSP, MMSP, IDEOGRAPHIC SPACE and ZWNBSP. String.prototype.trim strips
these from both ends and parseInt skips them before the sign. -/
def jsIsWhitespace (c : Char) : Bool :=
  c.toNat == 0x09 || c.toNat == 0x0A || c.toNat == 0x0B || c.toNat == 0x0C ||
  c.toNat == 0x0D || c.toNat == 0x20 || c.toNat == 0xA0 || c.toNat == 0x1680 ||
  (0x2000 ≤ c.toNat && c.toNat ≤ 0x200A) ||
  c.toNat == 0x2028 || c.toNat == 0x2029 || c.toNat == 0x202F ||
  c.toNat == 0x205F || c.toNat == 0x3000 || c.toNat == 0xFEFF

/-- JavaScript trim: strip JS whitespace and line terminators from both
ends. -/
def jsTrim (s : String) : String :=
  ⟨((s.data.dropWhile jsIsWhitespace).reverse.dropWhile jsIsWhitespace).reverse⟩

/-- Strip JS whitespace from the left end only, as parseInt does before
reading the sign and digits. -/
def jsTrimLeft (s : String) : String := ⟨s.data.dropWhile jsIsWhitespace⟩

/-- JavaScript slice from a character index to the end. -/
def jsDrop (s : String) (n : Nat) : String := ⟨s.data.drop n⟩

/-- First n characters of a string, for a two-index JavaScript slice. -/
def jsTake (s : String) (n : Nat) : String := ⟨s.data.take n⟩

/-- Split a character list at every occurrence of the separator. -/
def splitOnChar (cs : List Char) (c : Char) : List (List Char) :=
  match cs with
  | [] => [[]]
  | x :: xs =>
    let r := splitOnChar xs c
    if x = c then [] :: r
    else
      match r with
      | [] => [[x]]
      | y :: ys => (x :: y) :: ys

/-- JavaScript split on a single-character separator. -/
def jsSplit (s : String) (c : Char) : List String :=
  (splitOnChar s.data c).map String.mk

/-- Accumulate a run of decimal digit characters into a natural number, as the
radix-10 digit loop of JavaScript parseInt does. -/
def digitsToNat (cs : List Char) : Nat :=
  cs.foldl (fun n c => 10 * n + (c.toNat - 48)) 0

/-- Hexadecimal digit test, for the 0x prefix auto-detection of radix-less
parseInt. -/
def isHexDigit (c : Char) : Bool :=
  c.isDigit || ('a' ≤ c && c ≤ 'f') || ('A' ≤ c && c ≤ 'F')

/-- Numeric value of a hexadecimal digit character. -/
def hexDigitVal (c : Char) : Nat :=
  if c.isDigit then c.toNat - 48
  else if 'a' ≤ c && c ≤ 'f' then c.toNat - 87
  else c.toNat - 55

/-- Accumulate a run of hexadecimal digit characters into a natural number. -/
def hexDigitsToNat (cs : List Char) : Nat :=
  cs.foldl (fun n c => 16 * n + hexDigitVal c) 0

/-- Model of JavaScript parseInt called without a radix argument, as the
source does: skip leading JS whitespace, read an optional sign, then
auto-detect a 0x or 0X prefix and read the maximal run of hexadecimal digits
after it, or otherwise the maximal run of decimal digits; if the chosen run is
empty the result is NaN, modelled as none. -/
def jsParseInt (s : String) : Option Int :=
  let t := jsTrimLeft s
  let sign : Int := if jsStartsWith t "-" then -1 else 1
  let rest := if jsStartsWith t "-" || jsStartsWith t "+" then jsDrop t 1 else t
  if jsStartsWith rest "0x" || jsStartsWith rest "0X" then
    let ds := (jsDrop rest 2).data.takeWhile isHexDigit
    if ds.isEmpty then none
    else some (sign * (hexDigitsToNat ds : Int))
  else
    let ds := rest.data.takeWhile Char.isDigit
    if ds.isEmpty then none
    else some (sign * (digitsToNat ds : Int))

/-- A JavaScript number as it can end up in the datastore: either NaN or an
actual (here: rational) value. -/
inductive JsNumber
  | nan
  | val (q : ℚ)
deriving DecidableEq

/- ## utils.ts -/

/-- From utils.ts: clamp x to the interval from lo to hi. -/
def clamp (x lo hi : ℚ) : ℚ := max (min x hi) lo

/-- From utils.ts: fractional position of x between a and b. -/
def invLerp (a b x : ℚ) : ℚ := (x - a) / (b - a)

/-- From utils.ts: fractional position of x between a and b, clamped to 0..1. -/
def invLerpClamped (a b x : ℚ) : ℚ := clamp (invLerp a b x) 0 1

/- ## SerialManager.ts: result codes and transaction engine -/

/-- WriteResponseCode from SerialManager.ts, constructors in source order. -/
inductive WriteResponseCode
  | UNKNOWN
  | PORT_NOT_OPEN
  | RESPONSE_TIMED_OUT
  | NO_VALID_RESPONSE
  | VALID_RESPONSE
  | UNEXPECTED_ERROR
deriving DecidableEq

/-- WriteResponse from SerialManager.ts: a result code plus the response text
(empty unless a valid response arrived). -/
structure WriteResponse where
  code : WriteResponseCode
  value : String
deriving DecidableEq

/-- TOTAL_TIMEOUT from SerialManager.ts, in milliseconds. -/
def TOTAL_TIMEOUT : Nat := 1000

/-- Per-transaction environment of SerialConnection.writeWithResponse: whether
the port exists and is open when the body runs, whether the body throws
synchronously (e.g. the write), and the decoder frame delivered to the one-shot
data listener, if any, as (arrival time in ms after the race is armed, text). -/
structure SerialEnv where
  portOpen : Bool
  writeThrows : Bool
  frame : Option (Nat × String)
deriving DecidableEq

/-- Operations performed against the single-slot async-await-queue. -/
inductive QueueOp
  | wait
  | queueEnd
deriving DecidableEq

/-- The try/catch body of SerialConnection.writeWithResponse: port not open
resolves PORT_NOT_OPEN; a synchronous throw is caught and resolves
UNEXPECTED_ERROR; otherwise the 1-second reject timer races the one-shot frame
listener, a frame arriving strictly inside the window resolves VALID_RESPONSE
with the trimmed text, anything else resolves RESPONSE_TIMED_OUT. -/
def tryCatchBody (env : SerialEnv) : WriteResponse :=
  if !env.portOpen then ⟨.PORT_NOT_OPEN, ""⟩
  else if env.writeThrows then ⟨.UNEXPECTED_ERROR, ""⟩
  else
    match env.frame with
    | some (t, s) =>
      if t < TOTAL_TIMEOUT then ⟨.VALID_RESPONSE, jsTrim s⟩
      else ⟨.RESPONSE_TIMED_OUT, ""⟩
    | none => ⟨.RESPONSE_TIMED_OUT, ""⟩

/-- SerialConnection.writeWithResponse: acquire a queue ticket, run the
try/catch body, and release the ticket in the finally block, which runs on
every path. Returns the resolved response together with the queue operations
performed, in program order. -/
def writeWithResponse (env : SerialEnv) : WriteResponse × List QueueOp :=
  (tryCatchBody env, [QueueOp.wait, QueueOp.queueEnd])

/-- Semantics of the capacity-one queue for a sequential caller: wait is
granted only when the channel is free (otherwise the caller suspends forever,
modelled as none), queueEnd releases the held slot and releasing an unheld
ticket leaves the state unchanged. -/
def queueStep : Option Nat → QueueOp → Option Nat
  | some 0, .wait => some 1
  | some (_ + 1), .wait => none
  | some (n + 1), .queueEnd => some n
  | some 0, .queueEnd => some 0
  | none, _ => none

/-- Run a list of queue operations from a given queue state. -/
def runQueueOps (q : Option Nat) (ops : List QueueOp) : Option Nat :=
  ops.foldl queueStep q

/-- Sequentially issue one writeWithResponse per environment, threading the
queue state; none means some command blocked forever on its wait. -/
def runSeq (envs : List SerialEnv) (q : Nat) : Option (List WriteResponse × Nat) :=
  match envs with
  | [] => some ([], q)
  | env :: rest =>
    let r := writeWithResponse env
    match runQueueOps (some q) r.2 with
    | none => none
    | some q2 => (runSeq rest q2).map fun p => (r.1 :: p.1, p.2)

/- ## SerialConnection.connect and teardown -/

/-- Environment of SerialConnection.connect: whether the asynchronous wait for
the open event rejects, and the environment of the VR identity transaction. -/
structure ConnectEnv where
  openFails : Bool
  vr : SerialEnv
deriving DecidableEq

/-- Observable outcome of SerialConnection.connect: the returned boolean and
whether this.disconnect() was invoked before returning. -/
structure ConnectResult where
  ok : Bool
  disconnectCalled : Bool
deriving DecidableEq

/-- SerialConnection.connect: if the open wait rejects, return false (without
any disconnect); otherwise run the VR transaction and succeed exactly when it
resolved VALID_RESPONSE with a truthy (non-empty) value starting with Build:,
calling disconnect before returning false in the remaining cases. -/
def connect (env : ConnectEnv) : ConnectResult :=
  if env.openFails then ⟨false, false⟩
  else
    let resp := (writeWithResponse env.vr).1
    if (resp.code == .VALID_RESPONSE) && (resp.value != "") && jsStartsWith resp.value "Build:"
    then ⟨true, false⟩
    else ⟨false, true⟩

/-- State of a SerialConnection as far as teardown is concerned: whether the
decoder pipe is attached, and the port field (none when undefined, otherwise
whether the port is open). -/
structure ConnState where
  parserAttached : Bool
  port : Option Bool
deriving DecidableEq

/-- Effects of one call to SerialConnection.disconnect: whether port.close()
was invoked and how many disconnect events were emitted by this call. -/
structure TeardownEffects where
  closeCalled : Bool
  emits : Nat
deriving DecidableEq

/-- SerialConnection.disconnect: detach the decoder, close the port if it is
set and open, clear the port field, and emit one disconnect event; the emit is
unconditional on every call. -/
def disconnect (st : ConnState) : ConnState × TeardownEffects :=
  (⟨false, none⟩, ⟨st.port == some true, 1⟩)

/- ## Frame decoder -/

/-- END_OF_TRANSMISSION_DELIMITER from SerialManager.ts: the EOT byte 0x04. -/
def EOT : Nat := 4

/-- Modelled from the spec: the DelimiterParser frame decoder of the serialport
library, which SerialManager.ts only configures (delimiter EOT, delimiter not
included). Per the spec, it buffers bytes; whenever the terminator byte
appears it emits everything buffered before it as one frame, discarding the
terminator, and retains any trailing partial frame for the next chunk. State is
(current buffer, frames emitted so far, in order). -/
def decodeStep : List Nat × List (List Nat) → Nat → List Nat × List (List Nat)
  | (buf, out), b => if b = EOT then ([], out ++ [buf]) else (buf ++ [b], out)

/-- Feed one chunk of bytes to the decoder. -/
def decodeRun (st : List Nat × List (List Nat)) (chunk : List Nat) :
    List Nat × List (List Nat) :=
  chunk.foldl decodeStep st

/-- Feed a sequence of chunks to a fresh decoder, returning the final partial
buffer and all frames emitted, in order. -/
def decodeChunks (chunks : List (List Nat)) : List Nat × List (List Nat) :=
  chunks.foldl decodeRun ([], [])

/-- A byte stream consisting of the given frames, each followed by the EOT
terminator, and then a trailing remainder with no terminator of its own. -/
def framesThenTail (fs : List (List Nat)) (t : List Nat) : List Nat :=
  (fs.map fun f => f ++ [EOT]).flatten ++ t

/- ## MainWindow.ts polling constants -/

/-- BATTERY_FAST_POLL_PERIOD from MainWindow.ts, ms. -/
def BATTERY_FAST_POLL_PERIOD : Nat := 3000

/-- BATTERY_SLOW_POLL_PERIOD from MainWindow.ts, ms. -/
def BATTERY_SLOW_POLL_PERIOD : Nat := 30000

/-- CLOCK_FAST_POLL_PERIOD from MainWindow.ts, ms. -/
def CLOCK_FAST_POLL_PERIOD : Nat := 3000

/-- CLOCK_SLOW_POLL_PERIOD from MainWindow.ts, ms. -/
def CLOCK_SLOW_POLL_PERIOD : Nat := 60000

/- ## MainWindow.pollBattery -/

/-- Battery-related datastore fields written by pollBattery. -/
structure BatteryStore where
  batteryMV : Option JsNumber
  batteryPct : Option JsNumber
deriving DecidableEq

/-- The millivolt value pollBattery parses from a truthy GB response: on the
Battery-colon format, parseInt of the four characters after the prefix;
otherwise, on a comma split with exactly three fields, parseInt of the trimmed
third field; otherwise mv keeps its initial value 0. none models NaN. -/
def parseBatteryMV (s : String) : Option Int :=
  if jsStartsWith s "Battery: " then jsParseInt (jsTake (jsDrop s 9) 4)
  else
    match jsSplit s ',' with
    | [_, _, c] => jsParseInt (jsTrim c)
    | _ => some 0

/-- The fraction pollBattery computes from an in-range millivolt reading. -/
def batteryFrac (mv : ℚ) : ℚ := max (invLerpClamped 3600 4100 mv) (1 / 100)

/-- Outcome of one pollBattery iteration: the delay until the next poll and
the battery datastore fields afterwards. -/
structure BatteryPollResult where
  delay : Nat
  store : BatteryStore
deriving DecidableEq

/-- MainWindow.pollBattery: disconnected or falsy response polls fast again; a
parsed number below 100 or above 6000 is logged invalid and polls fast; an
in-range number stores the millivolts and fraction and polls slow; a NaN parse
slips past the range test (both comparisons are false on NaN), stores NaN for
both fields, and also polls slow. -/
def pollBattery (connected : Bool) (resp : Option String) (store : BatteryStore) :
    BatteryPollResult :=
  if !connected then ⟨BATTERY_FAST_POLL_PERIOD, store⟩
  else
    match resp with
    | none => ⟨BATTERY_FAST_POLL_PERIOD, store⟩
    | some s =>
      if s == "" then ⟨BATTERY_FAST_POLL_PERIOD, store⟩
      else
        match parseBatteryMV s with
        | some mv =>
          if mv < 100 ∨ mv > 6000 then ⟨BATTERY_FAST_POLL_PERIOD, store⟩
          else ⟨BATTERY_SLOW_POLL_PERIOD, ⟨some (.val mv), some (.val (batteryFrac mv))⟩⟩
        | none => ⟨BATTERY_SLOW_POLL_PERIOD, ⟨some .nan, some .nan⟩⟩

/- ## MainWindow.pollClock and syncClock -/

/-- Outcome of one pollClock iteration: the ST sync command issued, if any, the
delay until the next poll, and the timeOnVeet value written, if any. -/
structure ClockPollResult where
  syncCmd : Option String
  delay : Nat
  timeOnVeet : Option JsNumber
deriving DecidableEq

/-- MainWindow.pollClock: disconnected or falsy GT response polls fast with no
sync; otherwise parseInt of the text after the nine-character Time-prefix is
stored as timeOnVeet, and the difference to the host epoch decides: more than 5
seconds behind or ahead issues syncClock (an ST command carrying the host
epoch) and polls fast; otherwise polls slow. A NaN parse makes both skew
comparisons false, so it stores NaN and polls slow with no sync. -/
def pollClock (connected : Bool) (resp : Option String) (curEpoch : Int) :
    ClockPollResult :=
  if !connected then ⟨none, CLOCK_FAST_POLL_PERIOD, none⟩
  else
    match resp with
    | none => ⟨none, CLOCK_FAST_POLL_PERIOD, none⟩
    | some s =>
      if s == "" then ⟨none, CLOCK_FAST_POLL_PERIOD, none⟩
      else
        match jsParseInt (jsDrop s 9) with
        | some veet =>
          if veet - curEpoch < -5 then
            ⟨some ("ST" ++ toString curEpoch), CLOCK_FAST_POLL_PERIOD, some (.val veet)⟩
          else if veet - curEpoch > 5 then
            ⟨some ("ST" ++ toString curEpoch), CLOCK_FAST_POLL_PERIOD, some (.val veet)⟩
          else ⟨none, CLOCK_SLOW_POLL_PERIOD, some (.val veet)⟩
        | none => ⟨none, CLOCK_SLOW_POLL_PERIOD, some .nan⟩

/- ## MainWindow.startPollSensorThread -/

/-- UI tabs that drive the sensor poll loop. -/
inductive Tab
  | PHO
  | TOF
  | ALS
  | IMU
  | other
deriving DecidableEq

/-- Sensor datastore fields written by the sensor poll loop. -/
structure SensorStore where
  phoData : Option String
  tofData : Option String
  alsData : Option String
  imuData : Option String
deriving DecidableEq

/-- Outcome of one sensor-poll iteration: the sensor datastore afterwards, the
stream-recorder contents afterwards, and whether any session teardown was
triggered by this iteration (the loop only logs caught errors; it never tears
the session down). -/
structure SensorIterResult where
  store : SensorStore
  recorded : List String
  teardown : Bool
deriving DecidableEq

/-- The acceptance test each tab case applies to a poll response: the string
must be truthy (non-empty) and must not start with #Err. -/
def sensorAccept (resp : Option String) : Option String :=
  match resp with
  | some s => if (s != "") && !(jsStartsWith s "#Err") then some s else none
  | none => none

/-- One iteration of the loop body of MainWindow.startPollSensorThread for the
currently active tab: an accepted response updates that tab's datastore field
and is written to the stream recorder when recording; a rejected response (null,
empty, or starting with #Err) changes nothing. -/
def sensorPollIter (connected : Bool) (tab : Tab) (resp : Option String)
    (store : SensorStore) (recorded : List String) (recording : Bool) :
    SensorIterResult :=
  if !connected then ⟨store, recorded, false⟩
  else
    match tab, sensorAccept resp with
    | .PHO, some s =>
      ⟨{ store with phoData := some s }, if recording then recorded ++ [s] else recorded, false⟩
    | .TOF, some s =>
      ⟨{ store with tofData := some s }, if recording then recorded ++ [s] else recorded, false⟩
    | .ALS, some s =>
      ⟨{ store with alsData := some s }, if recording then recorded ++ [s] else recorded, false⟩
    | .IMU, some s =>
      ⟨{ store with imuData := some s }, if recording then recorded ++ [s] else recorded, false⟩
    | _, _ => ⟨store, recorded, false⟩

/- ## Decoder lemmas -/

theorem decodeRun_append (st : List Nat × List (List Nat)) (xs ys : List Nat) :
    decodeRun st (xs ++ ys) = decodeRun (decodeRun st xs) ys := by
  simp [decodeRun, List.foldl_append]

theorem decodeChunks_eq_flatten (chunks : List (List Nat)) :
    decodeChunks chunks = decodeRun ([], []) chunks.flatten := by
  suffices h : ∀ st, chunks.foldl decodeRun st = decodeRun st chunks.flatten by
    simpa [decodeChunks] using h ([], [])
  induction chunks with
  | nil => intro st; simp [decodeRun]
  | cons c cs ih => intro st; simp [List.foldl_cons, ih, decodeRun_append]

theorem decodeRun_no_eot (xs : List Nat) (h : EOT ∉ xs) (buf : List Nat)
    (out : List (List Nat)) : decodeRun (buf, out) xs = (buf ++ xs, out) := by
  induction xs generalizing buf with
  | nil => simp [decodeRun]
  | cons b bs ih =>
    simp only [List.mem_cons, not_or] at h
    obtain ⟨hb, hbs⟩ := h
    calc decodeRun (buf, out) (b :: bs)
        = decodeRun (buf ++ [b], out) bs := by
          simp [decodeRun, List.foldl_cons, decodeStep, Ne.symm hb]
      _ = (buf ++ b :: bs, out) := by rw [ih hbs]; simp

theorem decodeRun_framesThenTail (fs : List (List Nat)) (t : List Nat)
    (hfs : ∀ f ∈ fs, EOT ∉ f) (ht : EOT ∉ t) :
    ∀ out, decodeRun ([], out) (framesThenTail fs t) = (t, out ++ fs) := by
  induction fs with
  | nil =>
    intro out
    simpa [framesThenTail] using decodeRun_no_eot t ht [] out
  | cons f fs ih =>
    intro out
    have hf : EOT ∉ f := hfs f (List.mem_cons_self f fs)
    have hfs2 : ∀ g ∈ fs, EOT ∉ g := fun g hg => hfs g (List.mem_cons_of_mem f hg)
    have hstep : decodeRun ([], out) (f ++ [EOT]) = ([], out ++ [f]) := by
      rw [decodeRun_append, decodeRun_no_eot f hf]
      simp [decodeRun, decodeStep]
    have hsplit : framesThenTail (f :: fs) t = (f ++ [EOT]) ++ framesThenTail fs t := by
      simp [framesThenTail]
    rw [hsplit, decodeRun_append, hstep, ih hfs2 (out ++ [f])]
    simp

/-- C5: for every chunking of an incoming byte stream made of zero or more
frames, each followed by the 0x04 terminator, plus a trailing remainder, the
decoder emits exactly those frames, in arrival order, with no terminator byte
inside any emitted frame, and retains exactly the trailing remainder as the
unemitted partial frame. -/
theorem veet_decoder_frames (chunks fs : List (List Nat)) (t : List Nat)
    (hfs : ∀ f ∈ fs, EOT ∉ f) (ht : EOT ∉ t)
    (hstream : chunks.flatten = framesThenTail fs t) :
    decodeChunks chunks = (t, fs) := by
  rw [decodeChunks_eq_flatten, hstream, decodeRun_framesThenTail fs t hfs ht []]
  simp

/-- Witness for C5: the stream 65,EOT,66,67,EOT,EOT,68 arriving in two chunks
split mid-frame yields frames 65 then 66,67 then an empty frame, with 68
retained as the partial frame. -/
theorem veet_decoder_frames_witness :
    decodeChunks [[65, 4, 66], [67, 4, 4, 68]] = ([68], [[65], [66, 67], []]) :=
  veet_decoder_frames [[65, 4, 66], [67, 4, 4, 68]] [[65], [66, 67], []] [68]
    (by decide) (by decide) (by decide)

/- ## Transaction engine theorems -/

/-- C1: on every execution path of writeWithResponse (port not open, valid
response, timeout, thrown exception) the queue ticket is released exactly once
before the call resolves, leaving the queue free again; consequently a sequence
of sequentially issued commands against a device that never responds resolves
each command individually with a timeout outcome, with no later command blocked
forever by a leaked ticket. -/
theorem veet_ticket_released_every_path :
    (∀ env : SerialEnv,
      (writeWithResponse env).2.count QueueOp.queueEnd = 1 ∧
      runQueueOps (some 0) (writeWithResponse env).2 = some 0) ∧
    (∀ envs : List SerialEnv,
      (∀ env ∈ envs, env.portOpen = true ∧ env.writeThrows = false ∧ env.frame = none) →
      runSeq envs 0 =
        some (envs.map fun _ => ⟨.RESPONSE_TIMED_OUT, ""⟩, 0)) := by
  constructor
  · exact fun env => ⟨rfl, rfl⟩
  · intro envs h
    induction envs with
    | nil => rfl
    | cons e es ih =>
      obtain ⟨h1, h2, h3⟩ := h e (List.mem_cons_self e es)
      have hresp : tryCatchBody e = ⟨.RESPONSE_TIMED_OUT, ""⟩ := by
        simp [tryCatchBody, h1, h2, h3]
      have hct : runSeq (e :: es) 0 =
          (runSeq es 0).map fun p => ((writeWithResponse e).1 :: p.1, p.2) := rfl
      rw [hct, ih fun e2 he2 => h e2 (List.mem_cons_of_mem e he2)]
      simp [writeWithResponse, hresp]

/-- Witness for C1: two sequential commands against a never-responding device
both resolve RESPONSE_TIMED_OUT and the queue ends free. -/
theorem veet_ticket_released_every_path_witness :
    runSeq [⟨true, false, none⟩, ⟨true, false, none⟩] 0 =
      some ([⟨.RESPONSE_TIMED_OUT, ""⟩, ⟨.RESPONSE_TIMED_OUT, ""⟩], 0) := by
  have h := veet_ticket_released_every_path.2
    [⟨true, false, none⟩, ⟨true, false, none⟩] (by simp)
  simpa using h

/-- C2: when the decoder delivers no complete frame strictly inside the
1-second window after the race is armed, the transaction resolves
RESPONSE_TIMED_OUT and not VALID_RESPONSE, and the resolved response for a
frame arriving at 1001 ms is identical to the response when no frame ever
arrives — the late frame cannot change the settled transaction. -/
theorem veet_timeout_wins_race (env : SerialEnv)
    (hOpen : env.portOpen = true) (hNoThrow : env.writeThrows = false)
    (hLate : ∀ t s, env.frame = some (t, s) → TOTAL_TIMEOUT ≤ t) :
    (writeWithResponse env).1.code = .RESPONSE_TIMED_OUT ∧
    (writeWithResponse env).1.code ≠ .VALID_RESPONSE ∧
    ∀ s : String,
      writeWithResponse ⟨env.portOpen, env.writeThrows, some (1001, s)⟩ =
        writeWithResponse ⟨env.portOpen, env.writeThrows, none⟩ := by
  have hbody : tryCatchBody env = ⟨.RESPONSE_TIMED_OUT, ""⟩ := by
    rcases henv : env.frame with _ | ⟨t, s⟩
    · simp [tryCatchBody, hOpen, hNoThrow, henv]
    · have hts := hLate t s henv
      simp [tryCatchBody, hOpen, hNoThrow, henv, Nat.not_lt.mpr hts]
  refine ⟨by simp [writeWithResponse, hbody], by simp [writeWithResponse, hbody], ?_⟩
  intro s
  rw [hOpen, hNoThrow]
  rfl

/-- Witness for C2: a frame arriving only at 1001 ms yields a timed-out
transaction. -/
theorem veet_timeout_wins_race_witness :
    (writeWithResponse ⟨true, false, some (1001, "late")⟩).1.code =
      WriteResponseCode.RESPONSE_TIMED_OUT :=
  (veet_timeout_wins_race ⟨true, false, some (1001, "late")⟩ rfl rfl
    (by rintro t s h
        rw [Option.some.injEq, Prod.mk.injEq] at h
        obtain ⟨h1, -⟩ := h
        simp only [TOTAL_TIMEOUT]
        omega)).1

/-- Case analysis of the transaction body along its four execution paths. -/
theorem tryCatchBody_cases (env : SerialEnv) :
    tryCatchBody env = ⟨.PORT_NOT_OPEN, ""⟩ ∨
    tryCatchBody env = ⟨.UNEXPECTED_ERROR, ""⟩ ∨
    tryCatchBody env = ⟨.RESPONSE_TIMED_OUT, ""⟩ ∨
    ∃ s : String, tryCatchBody env = ⟨.VALID_RESPONSE, s⟩ := by
  unfold tryCatchBody
  split
  · exact Or.inl rfl
  · split
    · exact Or.inr (Or.inl rfl)
    · split
      · split
        · exact Or.inr (Or.inr (Or.inr ⟨_, rfl⟩))
        · exact Or.inr (Or.inr (Or.inl rfl))
      · exact Or.inr (Or.inr (Or.inl rfl))

/-- C10: every resolved WriteResponse carries one of the four reachable codes —
PORT_NOT_OPEN, RESPONSE_TIMED_OUT, VALID_RESPONSE, UNEXPECTED_ERROR — so
UNKNOWN and NO_VALID_RESPONSE are never the code of a resolved transaction, and
the value field is non-empty only when the code is VALID_RESPONSE. -/
theorem veet_response_code_taxonomy (env : SerialEnv) :
    ((writeWithResponse env).1.code = .PORT_NOT_OPEN ∨
     (writeWithResponse env).1.code = .RESPONSE_TIMED_OUT ∨
     (writeWithResponse env).1.code = .VALID_RESPONSE ∨
     (writeWithResponse env).1.code = .UNEXPECTED_ERROR) ∧
    ((writeWithResponse env).1.value ≠ "" →
     (writeWithResponse env).1.code = .VALID_RESPONSE) := by
  rcases tryCatchBody_cases env with h | h | h | ⟨s, h⟩ <;>
    simp [writeWithResponse, h]

/-- Witness for C10: a whitespace-padded frame inside the window resolves
VALID_RESPONSE, obtained through the taxonomy theorem's non-empty-value
clause. -/
theorem veet_response_code_taxonomy_witness :
    (writeWithResponse ⟨true, false, some (5, " Build: 42 ")⟩).1.code =
      WriteResponseCode.VALID_RESPONSE :=
  (veet_response_code_taxonomy ⟨true, false, some (5, " Build: 42 ")⟩).2 (by decide)

/- ## Handshake and teardown theorems -/

/-- C3 counterexample: when the asynchronous wait for the open event fails,
connect returns false without ever invoking disconnect, refuting the claim that
every failing case closes the transport via disconnect before returning. -/
theorem veet_connect_failed_open_no_disconnect :
    connect ⟨true, ⟨true, false, none⟩⟩ = ⟨false, false⟩ := rfl

/-- C3 (amended): connect returns true iff the open wait succeeded and the VR
transaction resolved VALID_RESPONSE with a non-empty value starting with
Build:; when the open succeeded but the handshake failed (timeout, empty or
differently-prefixed response), disconnect is called before returning false;
when the open itself failed, connect returns false without calling
disconnect. -/
theorem veet_connect_characterization (env : ConnectEnv) :
    ((connect env).ok = true ↔
      env.openFails = false ∧
      (writeWithResponse env.vr).1.code = .VALID_RESPONSE ∧
      (writeWithResponse env.vr).1.value ≠ "" ∧
      jsStartsWith (writeWithResponse env.vr).1.value "Build:" = true) ∧
    (env.openFails = false → (connect env).ok = false →
      (connect env).disconnectCalled = true) ∧
    (env.openFails = true → connect env = ⟨false, false⟩) := by
  rcases env with ⟨of, vr⟩
  cases of
  case true => simp [connect]
  case false =>
    rcases hb : ((writeWithResponse vr).1.code == WriteResponseCode.VALID_RESPONSE) &&
        ((writeWithResponse vr).1.value != "") &&
        jsStartsWith (writeWithResponse vr).1.value "Build:" with _ | _
    · have h1 : connect ⟨false, vr⟩ = ⟨false, true⟩ := by
        simp [connect, hb]
      refine ⟨?_, fun _ _ => by simp [h1], fun hcon => by simp at hcon⟩
      rw [h1]
      simp only [Bool.and_eq_true, beq_iff_eq, bne_iff_ne] at hb ⊢
      constructor
      · intro hfalse
        exact absurd hfalse (by simp)
      · rintro ⟨-, hcode, hval, hsw⟩
        rw [show (((writeWithResponse vr).1.code == WriteResponseCode.VALID_RESPONSE) &&
            ((writeWithResponse vr).1.value != "") &&
            jsStartsWith (writeWithResponse vr).1.value "Build:") = true by
          simp [hcode, hval, hsw]] at hb
        exact absurd hb (by simp)
    · have h1 : connect ⟨false, vr⟩ = ⟨true, false⟩ := by
        simp [connect, hb]
      simp only [Bool.and_eq_true, beq_iff_eq, bne_iff_ne] at hb
      refine ⟨?_, ?_, fun hcon => by simp at hcon⟩
      · rw [h1]
        simp [hb.1.1, hb.1.2, hb.2]
      · intro _ hok
        rw [h1] at hok
        exact absurd hok (by simp)

/-- Witness for C3 (amended): a handshake whose VR frame arrives in time with a
Build-prefixed body succeeds, verified through the characterization. -/
theorem veet_connect_characterization_witness :
    (connect ⟨false, ⟨true, false, some (10, "Build: 107")⟩⟩).ok = true :=
  (veet_connect_characterization ⟨false, ⟨true, false, some (10, "Build: 107")⟩⟩).1.mpr
    ⟨rfl, by decide, by decide, by decide⟩

/-- C4 counterexample: a second call to SerialConnection.disconnect emits the
disconnect event again — one emission per call, two across the two calls —
refuting the claim that a second teardown call must not re-emit the
notification. -/
theorem veet_disconnect_second_call_reemits :
    (disconnect (disconnect ⟨true, some true⟩).1).2.emits = 1 ∧
    (disconnect ⟨true, some true⟩).2.emits +
      (disconnect (disconnect ⟨true, some true⟩).1).2.emits = 2 :=
  ⟨rfl, rfl⟩

/-- C4 (amended): teardown is idempotent on connection state and safe to call
twice — the second call leaves the already-cleared state, does not attempt to
close the port again, and does not throw — but the disconnect event is emitted
unconditionally on every call (exactly one emission per call), so the
notification fires once per teardown call rather than once per session
lifetime. -/
theorem veet_disconnect_idempotent_state (st : ConnState) :
    (disconnect (disconnect st).1).1 = (disconnect st).1 ∧
    (disconnect (disconnect st).1).2 = ⟨false, 1⟩ ∧
    (disconnect st).2.emits = 1 :=
  ⟨rfl, rfl, rfl⟩

/- ## Battery polling theorems -/

/-- C6: a GB transaction returning Battery-colon 4050 mV stores batteryMV 4050
and batteryPct 9/10, and in general any response parsing to a millivolt value
between 100 and 6000 (either wire format) stores exactly the fraction
max(clamp((mv - 3600)/500, 0, 1), 1/100). -/
theorem veet_battery_fraction :
    (pollBattery true (some "Battery: 4050mV") ⟨none, none⟩ =
      ⟨BATTERY_SLOW_POLL_PERIOD, ⟨some (.val 4050), some (.val (9 / 10))⟩⟩) ∧
    ∀ (s : String) (mv : Int) (store : BatteryStore),
      parseBatteryMV s = some mv → s ≠ "" → 100 ≤ mv → mv ≤ 6000 →
      (pollBattery true (some s) store).store =
        ⟨some (.val mv), some (.val (max (clamp (((mv : ℚ) - 3600) / 500) 0 1) (1 / 100)))⟩ := by
  constructor
  · have hp : parseBatteryMV "Battery: 4050mV" = some 4050 := by decide
    have hne : ("Battery: 4050mV" == "") = false := by decide
    have hfrac : batteryFrac (4050 : ℚ) = 9 / 10 := by
      norm_num [batteryFrac, invLerpClamped, invLerp, clamp]
    simp [pollBattery, hp, hne, hfrac]
  · intro s mv store hp hne h1 h2
    have hfrac : batteryFrac (mv : ℚ) =
        max (clamp (((mv : ℚ) - 3600) / 500) 0 1) (1 / 100) := by
      norm_num [batteryFrac, invLerpClamped, invLerp, clamp]
    have hrange : ¬(mv < 100 ∨ mv > 6000) := by omega
    simp [pollBattery, hp, hne, hrange, hfrac]

/-- Witness for C6: the comma wire format at 3900 mV stores the same clamped
fraction expression. -/
theorem veet_battery_fraction_witness :
    (pollBattery true (some "1700000000,BAT,3900") ⟨none, none⟩).store =
      ⟨some (.val ((3900 : Int) : ℚ)),
       some (.val (max (clamp ((((3900 : Int) : ℚ) - 3600) / 500) 0 1) (1 / 100)))⟩ :=
  veet_battery_fraction.2 "1700000000,BAT,3900" 3900 ⟨none, none⟩ (by decide) (by decide)
    (by decide) (by decide)

/-- C7 counterexample: a valid reading that changes the stored battery value
(4000 mV previously, 4050 mV now) still yields the slow 30-second interval, so
the short interval is not used after a value change, refuting the claim's
change clause. -/
theorem veet_battery_changed_still_slow :
    (pollBattery true (some "Battery: 4050mV")
        ⟨some (.val 4000), some (.val (4 / 5))⟩).delay = BATTERY_SLOW_POLL_PERIOD ∧
    (pollBattery true (some "Battery: 4050mV")
        ⟨some (.val 4000), some (.val (4 / 5))⟩).store.batteryMV ≠ some (.val 4000) ∧
    BATTERY_SLOW_POLL_PERIOD ≠ BATTERY_FAST_POLL_PERIOD := by
  refine ⟨rfl, by decide, by decide⟩

/-- C7 (amended): the next battery delay is the fast interval when the command
fails or the parsed value is a number outside 100..6000, and the slow interval
after any reading parsing to an in-range number — whether or not the value
changed, since the code never compares against the previous reading; a reading
that parses to NaN also slips past the range test and yields the slow
interval. -/
theorem veet_battery_interval_policy :
    (∀ store : BatteryStore,
      pollBattery true none store = ⟨BATTERY_FAST_POLL_PERIOD, store⟩) ∧
    (∀ (s : String) (mv : Int) (store : BatteryStore),
      parseBatteryMV s = some mv → s ≠ "" → (mv < 100 ∨ 6000 < mv) →
      pollBattery true (some s) store = ⟨BATTERY_FAST_POLL_PERIOD, store⟩) ∧
    (∀ (s : String) (mv : Int) (store : BatteryStore),
      parseBatteryMV s = some mv → s ≠ "" → 100 ≤ mv → mv ≤ 6000 →
      (pollBattery true (some s) store).delay = BATTERY_SLOW_POLL_PERIOD) ∧
    (∀ (s : String) (store : BatteryStore),
      parseBatteryMV s = none → s ≠ "" →
      (pollBattery true (some s) store).delay = BATTERY_SLOW_POLL_PERIOD) := by
  refine ⟨fun store => rfl, ?_, ?_, ?_⟩
  · intro s mv store hp hne hout
    have hrange : mv < 100 ∨ mv > 6000 := by omega
    simp [pollBattery, hp, hne, hrange]
  · intro s mv store hp hne h1 h2
    have hrange : ¬(mv < 100 ∨ mv > 6000) := by omega
    simp [pollBattery, hp, hne, hrange]
  · intro s store hp hne
    simp [pollBattery, hp, hne]

/-- Witness for C7 (amended): an out-of-range reading polls fast; an in-range
reading polls slow. -/
theorem veet_battery_interval_policy_witness :
    pollBattery true (some "Battery: 9000mV") ⟨none, none⟩ =
      ⟨BATTERY_FAST_POLL_PERIOD, ⟨none, none⟩⟩ ∧
    (pollBattery true (some "Battery: 4050mV") ⟨none, none⟩).delay =
      BATTERY_SLOW_POLL_PERIOD :=
  ⟨veet_battery_interval_policy.2.1 "Battery: 9000mV" 9000 ⟨none, none⟩ (by decide)
      (by decide) (by decide),
   veet_battery_interval_policy.2.2.1 "Battery: 4050mV" 4050 ⟨none, none⟩ (by decide)
      (by decide) (by decide) (by decide)⟩

/- ## Clock polling theorems -/

/-- C8 counterexample: a non-empty unparseable GT response parses to NaN, which
makes both skew comparisons false, so pollClock issues no sync, stores NaN as
the device time, and returns the slow 60-second interval — not the short retry
interval the claim requires for unparseable responses. -/
theorem veet_clock_unparseable_slow :
    pollClock true (some "garbage!!") 1700000000 =
      ⟨none, CLOCK_SLOW_POLL_PERIOD, some .nan⟩ ∧
    CLOCK_SLOW_POLL_PERIOD ≠ CLOCK_FAST_POLL_PERIOD :=
  ⟨rfl, by decide⟩

/-- C8 (amended): a failed GT command polls fast with no sync; a parseable
device epoch more than 5 seconds away from the host epoch in either direction
issues the ST re-sync command with the host epoch and polls fast; a skew within
5 seconds issues no sync and polls slow; a non-empty but unparseable response
falls into the within-threshold branch: no sync, NaN stored, slow interval. -/
theorem veet_clock_policy :
    (∀ cur : Int, pollClock true none cur = ⟨none, CLOCK_FAST_POLL_PERIOD, none⟩) ∧
    (∀ (s : String) (cur veet : Int),
      jsParseInt (jsDrop s 9) = some veet → s ≠ "" → 5 < |veet - cur| →
      (pollClock true (some s) cur).syncCmd = some ("ST" ++ toString cur) ∧
      (pollClock true (some s) cur).delay = CLOCK_FAST_POLL_PERIOD) ∧
    (∀ (s : String) (cur veet : Int),
      jsParseInt (jsDrop s 9) = some veet → s ≠ "" → |veet - cur| ≤ 5 →
      pollClock true (some s) cur = ⟨none, CLOCK_SLOW_POLL_PERIOD, some (.val veet)⟩) ∧
    (∀ (s : String) (cur : Int),
      jsParseInt (jsDrop s 9) = none → s ≠ "" →
      pollClock true (some s) cur = ⟨none, CLOCK_SLOW_POLL_PERIOD, some .nan⟩) := by
  refine ⟨fun cur => rfl, ?_, ?_, ?_⟩
  · intro s cur veet hp hne habs
    rcases lt_abs.mp habs with h | h
    · have h2 : veet - cur > 5 := h
      have h1 : ¬(veet - cur < -5) := by omega
      simp [pollClock, hp, hne, h1, h2]
    · have h1 : veet - cur < -5 := by omega
      simp [pollClock, hp, hne, h1]
  · intro s cur veet hp hne habs
    obtain ⟨ha, hb⟩ := abs_le.mp habs
    have h1 : ¬(veet - cur < -5) := by omega
    have h2 : ¬(veet - cur > 5) := by omega
    simp [pollClock, hp, hne, h1, h2]
  · intro s cur hp hne
    simp [pollClock, hp, hne]

/-- Witness for C8 (amended): a device 900 seconds ahead triggers the ST sync
and the fast interval; a device 3 seconds ahead is left alone on the slow
interval. -/
theorem veet_clock_policy_witness :
    ((pollClock true (some "Time(s): 1000") 100).syncCmd =
        some ("ST" ++ toString (100 : Int)) ∧
     (pollClock true (some "Time(s): 1000") 100).delay = CLOCK_FAST_POLL_PERIOD) ∧
    pollClock true (some "Time(s): 203") 200 =
      ⟨none, CLOCK_SLOW_POLL_PERIOD, some (.val ((203 : Int) : ℚ))⟩ :=
  ⟨veet_clock_policy.2.1 "Time(s): 1000" 100 1000 (by decide) (by decide) (by decide),
   veet_clock_policy.2.2.1 "Time(s): 203" 200 203 (by decide) (by decide) (by decide)⟩

/- ## Sensor polling theorem -/

/-- C9: whatever tab is active, a sensor-poll response beginning with the #Err
marker performs no datastore update, writes nothing to the stream recorder, and
triggers no session teardown. -/
theorem veet_sensor_err_no_update (tab : Tab) (s : String) (store : SensorStore)
    (recorded : List String) (recording : Bool)
    (herr : jsStartsWith s "#Err" = true) :
    sensorPollIter true tab (some s) store recorded recording =
      ⟨store, recorded, false⟩ := by
  have hacc : sensorAccept (some s) = none := by
    simp [sensorAccept, herr]
  cases tab <;> simp [sensorPollIter, hacc]

/-- Witness for C9: the response from the spec scenario leaves the IMU store,
the recorder, and the session untouched while recording is on. -/
theorem veet_sensor_err_no_update_witness :
    sensorPollIter true Tab.IMU (some "#Err Command failed")
      ⟨none, none, none, some "old"⟩ ["prev"] true =
      ⟨⟨none, none, none, some "old"⟩, ["prev"], false⟩ :=
  veet_sensor_err_no_update Tab.IMU "#Err Command failed" ⟨none, none, none, some "old"⟩
    ["prev"] true (by decide)

end Veet
